import Mathlib

/-!
Shallow embedding of the chat-session persistence engine of the repository
(`src/db/models.py`, `src/db/service.py`, `src/services/chat_service.py`),
together with theorems settling the specification claims about it.

Modelling conventions:
* A database state is the list of `chat_sessions` rows.  The `users` table is
  omitted: no claim concerns it, and `get_or_create_user` never fails on the
  paths the claims exercise.
* Timestamps (`time.time()`, `last_active`, `TIMEOUT_SECONDS`) are modelled as
  integers; the code only subtracts and compares them.
* The stored `history_json` column is modelled as the structured list it
  serializes (`json.dumps`/`json.loads` round-trip abstracted away); a history
  item is modelled by its `role` field, the only field the core logic reads
  (`None` when the dict has no `"role"` key).
* Python truthiness on optional strings (`if session_id:`, `if user_name:`,
  `if target_session_id:`) is modelled by `pyTruthy`: an absent value and the
  empty string are both falsy.  `session_id is None` is modelled by `.isNone`.
* SQLAlchemy semantics embedded from the declarations in the source:
  `ChatSession` declares `__mapper_args__ = {"version_id_col": version}`
  (src/db/models.py), so the ORM flush of the mutated `history_json` /
  `last_active` attributes issues a versioned UPDATE (`WHERE version = v`,
  `SET version = v + 1`) and raises `StaleDataError` when it matches zero
  rows; `db.add` + `flush` raises `IntegrityError` on a primary-key
  collision; the token-count statement `token_count = token_count + usage`
  is evaluated by the store against the stored value.  A successful
  `update_session` followed by `commit` is modelled as one atomic state
  transition; on an error the transaction is rolled back, leaving the store
  as other writers left it.
-/

/-- History item as the code sees it: only the `role` field is inspected
(`item.get("role")` / `item.role`), absent roles read as `None`. -/
structure HistItem where
  role : Option String
deriving Repr, DecidableEq

/-- Row of the `chat_sessions` table (src/db/models.py, class `ChatSession`). -/
structure Row where
  session_id : String
  user_name : String
  history : List HistItem
  last_active : Int
  token_count : Nat
  version : Nat
deriving Repr, DecidableEq

/-- Database state: the rows of `chat_sessions`. -/
abbrev DBState := List Row

/-- Errors raised by the embedded code: `HTTPException(status, detail)`,
SQLAlchemy `StaleDataError` (optimistic-version mismatch) and
`IntegrityError` (duplicate primary key). -/
inductive Err where
  | http (status : Nat) (detail : String)
  | staleData
  | integrity
deriving Repr, DecidableEq

/-- Python truthiness of an optional string: `None` and `""` are falsy. -/
def pyTruthy : Option String → Bool
  | none => false
  | some s => s ≠ ""

/-- SELECT of a `chat_sessions` row by primary key
(`WHERE ChatSession.session_id == session_id`). -/
def findSession (db : DBState) (sid : String) : Option Row :=
  db.find? (fun r => r.session_id == sid)

/-- SELECT of the most-recently-active session of a user
(`WHERE user_name == u ORDER BY last_active DESC LIMIT 1`); on a tie the
earlier row is kept (SQL leaves the tie order unspecified). -/
def latestFor (db : DBState) (u : String) : Option Row :=
  (db.filter (fun r => r.user_name == u)).foldl
    (fun acc r =>
      match acc with
      | none => some r
      | some b => if b.last_active < r.last_active then some r else some b)
    none

/-- Embedding of `ChatSessionDBService.get_session` (src/db/service.py,
lines 42-78), including the Python truthiness of both arguments: the
owner check runs only when `user_name` is truthy. -/
def get_session (db : DBState) (session_id : Option String)
    (user_name : Option String) : Except Err (Option Row) :=
  if pyTruthy session_id then
    match findSession db (session_id.getD "") with
    | some s =>
        if pyTruthy user_name ∧ s.user_name ≠ user_name.getD "" then
          Except.error (Err.http 403 "Forbidden")
        else Except.ok (some s)
    | none => Except.error (Err.http 404 "Session not found")
  else if pyTruthy user_name then
    Except.ok (latestFor db (user_name.getD ""))
  else
    Except.ok none

/-- Embedding of `ChatSessionDBService.create_session` (src/db/service.py,
lines 81-100).  `freshId` stands for the generated `str(uuid.uuid4())`; the
store raises `IntegrityError` at flush when the primary key already exists.
The `users`-table upsert of `get_or_create_user` is omitted (no claim
concerns it). -/
def create_session (db : DBState) (user_name : String)
    (session_id : Option String) (freshId : String) (now : Int) :
    Except Err (DBState × Row) :=
  let new_id := if pyTruthy session_id then session_id.getD "" else freshId
  if (findSession db new_id).isSome then Except.error Err.integrity
  else
    let r : Row :=
      { session_id := new_id, user_name := user_name, history := [],
        last_active := now, token_count := 0, version := 1 }
    Except.ok (db ++ [r], r)

/-- UPDATE of every row matching a session id (`WHERE session_id == sid`;
the primary key makes at most one row match in a well-formed store). -/
def setRows (sid : String) (f : Row → Row) (db : DBState) : DBState :=
  db.map (fun r => if r.session_id == sid then f r else r)

/-- Embedding of `ChatSessionDBService.update_session` followed by `commit`
(src/db/service.py, lines 102-136).  The in-memory object `sess` supplies
the id and the version under which the ORM flush of the mutated
`history_json` / `last_active` attributes runs (the `version_id_col`
declared in src/db/models.py): a version mismatch, or a vanished row,
raises `StaleDataError` and nothing is applied.  Otherwise the committed
row carries the new history and timestamp, version bumped by one, and a
token count computed by the store: `token_usage` absolutely when
`reset_token_count`, else the stored count plus `token_usage`
(`token_count = ChatSession.token_count + token_usage`) — never a value
computed from the in-memory copy. -/
def update_session (db : DBState) (sess : Row) (history_data : List HistItem)
    (token_usage : Nat) (reset_token_count : Bool) (now : Int) :
    Except Err DBState :=
  match findSession db sess.session_id with
  | none => Except.error Err.staleData
  | some stored =>
    if stored.version = sess.version then
      Except.ok (setRows sess.session_id
        (fun r =>
          { r with history := history_data, last_active := now,
                   version := stored.version + 1,
                   token_count :=
                     if reset_token_count then token_usage
                     else stored.token_count + token_usage }) db)
    else Except.error Err.staleData

/-- Python slice `history[-max_len:]`: for `max_len = 0` this is
`history[0:]`, the whole list, not the empty suffix. -/
def pySliceLastN (n : Nat) (xs : List HistItem) : List HistItem :=
  if n = 0 then xs else xs.drop (xs.length - n)

/-- While-loop of `_strip_history_length`: pop leading items until the first
one has role `"user"` or the list is empty. -/
def dropLeadingNonUser : List HistItem → List HistItem
  | [] => []
  | x :: xs => if x.role = some "user" then x :: xs else dropLeadingNonUser xs

/-- Embedding of `SmartGeminiBackend._strip_history_length`
(src/services/chat_service.py, lines 164-200), with
`max_len = env_settings.MAX_HISTORY_LENGTH` passed explicitly. -/
def strip_history_length (max_len : Nat) (history : List HistItem) :
    List HistItem :=
  if history.length ≤ max_len then history
  else dropLeadingNonUser (pySliceLastN max_len history)

/-- Detail string of the quota `HTTPException`
(f-string over `TIMEOUT_SECONDS`). -/
def quotaDetail (timeout : Int) : String :=
  "Token limit exceeded. Please start a new or wait " ++ toString timeout ++ "s."

/-- Embedding of `SmartGeminiBackend._check_token_limit`
(src/services/chat_service.py, lines 202-212): raises 400 only when
`db_session.token_count` is truthy (nonzero) AND at or above the bound. -/
def check_token_limit (timeout : Int) (max_tokens : Nat) (db_session : Row) :
    Except Err Unit :=
  if db_session.token_count ≠ 0 ∧ max_tokens ≤ db_session.token_count then
    Except.error (Err.http 400 (quotaDetail timeout))
  else Except.ok ()

/-- Configuration the service reads: `TIMEOUT_SECONDS`
(src/config/settings.py), `env_settings.MAX_HISTORY_LENGTH` and
`env_settings.MAX_TOKENS_PER_CHAT_SESSION` (environment-supplied). -/
structure Config where
  timeout : Int
  maxHistoryLength : Nat
  maxTokens : Nat

/-- Value of `TIMEOUT_SECONDS` pinned in src/config/settings.py. -/
def TIMEOUT_SECONDS : Int := 300

/-- Response of the LLM collaborator (`GeminiChatResponse` as the service
reads it): response text, the full new history, and the optional token
usage (`tokens.total_token_count if tokens else 0`). -/
structure LLMResp where
  text : String
  history : List HistItem
  tokens : Option Nat
deriving Repr, DecidableEq

/-- Environment of one `chat` attempt: the store as the read phase sees it,
the wall clock, the collaborator (`self.agent.chat`), the
`str(uuid.uuid4())` that `create_session` would generate, and the
interference of concurrent writers: `interfMid` is what other transactions
commit between the read phase and the save phase (while the LLM call runs),
`interfWrite` what they commit inside the save transaction's optimistic
window, between its re-read and its versioned flush. -/
structure ChatEnv where
  db : DBState
  now : Int
  llm : List HistItem → String → Except Unit LLMResp
  freshId : String
  interfMid : DBState → DBState
  interfWrite : DBState → DBState

/-- Value of `db_session_data` in `SmartGeminiBackend.chat` when it is not
`None`: the target session id, the token count loaded with it, and the
reset flag. -/
structure SessData where
  sid : String
  tokenCount : Nat
  reset : Bool
deriving Repr, DecidableEq

/-- Result of the load phase of `SmartGeminiBackend.chat`:
`initial_db_session` after the expiry decision, `db_session_data`, and the
loaded history. -/
structure LoadCtx where
  initial : Option Row
  sessData : Option SessData
  history : List HistItem
deriving Repr, DecidableEq

/-- Embedding of Phase 1 of `SmartGeminiBackend.chat`
(src/services/chat_service.py, lines 55-98): resolve the session, decide
expiry (`now - last_active > TIMEOUT_SECONDS`), and load the stripped
history of an active session (`_load_history`; the JSON-decode-failure
fallback to `[]` is not modelled, the stored history being kept
structured).  An expired session is dropped when `session_id is None`,
kept-but-reset when the caller pinned an id. -/
def loadPhase (cfg : Config) (db : DBState) (now : Int)
    (session_id : Option String) (user_name : String) :
    Except Err LoadCtx :=
  match get_session db session_id (some user_name) with
  | Except.error e => Except.error e
  | Except.ok none => Except.ok ⟨none, none, []⟩
  | Except.ok (some s) =>
    if cfg.timeout < now - s.last_active then
      if session_id.isNone then Except.ok ⟨none, none, []⟩
      else Except.ok ⟨some s, some ⟨s.session_id, 0, true⟩, []⟩
    else
      Except.ok ⟨some s, some ⟨s.session_id, s.token_count, false⟩,
        strip_history_length cfg.maxHistoryLength s.history⟩

/-- Embedding of step 3 of `SmartGeminiBackend.chat`
(src/services/chat_service.py, lines 92-94): the token limit is checked
only when `initial_db_session` is set and `db_session_data` is not marked
for reset. -/
def quotaPhase (cfg : Config) (ctx : LoadCtx) : Except Err Unit :=
  match ctx.initial with
  | none => Except.ok ()
  | some s =>
    if (match ctx.sessData with | some d => d.reset | none => false) then
      Except.ok ()
    else check_token_limit cfg.timeout cfg.maxTokens s

/-- Embedding of Phase 3 of `SmartGeminiBackend.chat`
(src/services/chat_service.py, lines 107-150): re-read the target session
(`if target_session_id:` is a truthiness test), create one when none is in
scope, and apply `update_session` + `commit`.  `dbR` is the store as the
save transaction's re-read sees it, `dbW` the store its writes are
validated against; on any error the transaction rolls back to `dbW`. -/
def savePhase (dbR dbW : DBState) (now : Int) (freshId user_name : String)
    (session_id : Option String) (sessData : Option SessData)
    (resp : LLMResp) : Except Err (String × String) × DBState :=
  let token_usage := (resp.tokens).getD 0
  let target : Option String :=
    match sessData with
    | some d => some d.sid
    | none => session_id
  match (if pyTruthy target then get_session dbR target (some user_name)
         else Except.ok none) with
  | Except.error e => (Except.error e, dbW)
  | Except.ok finalRead =>
    match (match finalRead with
           | some f => Except.ok (dbW, f)
           | none => create_session dbW user_name target freshId now) with
    | Except.error e => (Except.error e, dbW)
    | Except.ok (db3, finalSess) =>
      let should_reset :=
        match sessData with
        | some d => d.reset
        | none => false
      match update_session db3 finalSess resp.history token_usage
          should_reset now with
      | Except.error e => (Except.error e, dbW)
      | Except.ok db5 =>
        (Except.ok (resp.text, finalSess.session_id), db5)

deriving instance DecidableEq for Except

/-- Outcome of one `chat` attempt: the returned value or raised error, the
store after the attempt, and the log of collaborator invocations (history
and prompt of each call to `self.agent.chat`). -/
structure ChatOutcome where
  result : Except Err (String × String)
  db : DBState
  llmLog : List (List HistItem × String)
deriving DecidableEq

/-- Embedding of one attempt of `SmartGeminiBackend.chat`
(src/services/chat_service.py, lines 44-150), the body the `@retry`
decorator wraps: load phase, token check, LLM call (a failure raises
`HTTPException(503)`), save phase. -/
def chatOnce (cfg : Config) (env : ChatEnv) (user_name prompt : String)
    (session_id : Option String) : ChatOutcome :=
  match loadPhase cfg env.db env.now session_id user_name with
  | Except.error e => ⟨Except.error e, env.db, []⟩
  | Except.ok ctx =>
    match quotaPhase cfg ctx with
    | Except.error e => ⟨Except.error e, env.db, []⟩
    | Except.ok _ =>
      match env.llm ctx.history prompt with
      | Except.error _ =>
        ⟨Except.error (Err.http 503 "The AI service is currently unavailable."),
          env.db, [(ctx.history, prompt)]⟩
      | Except.ok resp =>
        let dbR := env.interfMid env.db
        let dbW := env.interfWrite dbR
        let saved := savePhase dbR dbW env.now env.freshId user_name
          session_id ctx.sessData resp
        ⟨saved.1, saved.2, [(ctx.history, prompt)]⟩

/-- Retryability of an error under the `@retry` decorator:
`retry_if_exception_type((IntegrityError, StaleDataError))`. -/
def retryableErr : Err → Bool
  | Err.staleData => true
  | Err.integrity => true
  | _ => false

/-- Retryability of an attempt's result. -/
def retryableResult : Except Err (String × String) → Bool
  | Except.error e => retryableErr e
  | Except.ok _ => false

/-- Outcome of the retrying `chat`: the final attempt's outcome, how many
attempts ran, and the waits slept between attempts (`wait_fixed(0.5)`,
in seconds). -/
structure RetryOutcome where
  outcome : ChatOutcome
  attempts : Nat
  waits : List Rat
deriving DecidableEq

/-- Embedding of the tenacity loop (src/services/chat_service.py, lines
38-43): run attempt `k` against its environment; on a retryable error with
retries left, sleep 0.5 s and rerun the whole body.  `reraise=True` makes
the last raw error propagate. -/
def chatRetryFrom (cfg : Config) (envs : Nat → ChatEnv)
    (user_name prompt : String) (session_id : Option String) :
    Nat → Nat → RetryOutcome
  | k, 0 => ⟨chatOnce cfg (envs k) user_name prompt session_id, 1, []⟩
  | k, fuel + 1 =>
    let o := chatOnce cfg (envs k) user_name prompt session_id
    if retryableResult o.result then
      let r := chatRetryFrom cfg envs user_name prompt session_id (k + 1) fuel
      ⟨r.outcome, r.attempts + 1, (1 / 2 : Rat) :: r.waits⟩
    else ⟨o, 1, []⟩

/-- Embedding of `SmartGeminiBackend.chat` as decorated:
`stop_after_attempt(3)` allows two retries after the first attempt. -/
def chat (cfg : Config) (envs : Nat → ChatEnv) (user_name prompt : String)
    (session_id : Option String) : RetryOutcome :=
  chatRetryFrom cfg envs user_name prompt session_id 0 2

/-! Helper lemmas about the store primitives. -/

lemma findSession_id {db : DBState} {sid : String} {r : Row}
    (h : findSession db sid = some r) : r.session_id = sid := by
  have := List.find?_some h
  simpa using this

lemma findSession_setRows (db : DBState) (sid : String) (f : Row → Row)
    (hf : ∀ r, (f r).session_id = r.session_id) :
    findSession (setRows sid f db) sid = (findSession db sid).map f := by
  induction db with
  | nil => rfl
  | cons r rs ih =>
    by_cases h : r.session_id = sid
    · simp [setRows, findSession, h, hf]
    · simp only [setRows, List.map_cons, findSession] at ih ⊢
      rw [if_neg (by simpa using h), List.find?_cons_of_neg _ (by simpa using h),
        List.find?_cons_of_neg _ (by simpa using h)]
      exact ih

lemma findSession_append {db : DBState} {r : Row}
    (h : findSession db r.session_id = none) :
    findSession (db ++ [r]) r.session_id = some r := by
  unfold findSession at h ⊢
  rw [List.find?_append, h]
  simp

lemma update_session_unfold (db : DBState) (sess : Row) (hd : List HistItem)
    (u : Nat) (rf : Bool) (now : Int) (stored : Row)
    (h0 : findSession db sess.session_id = some stored) :
    update_session db sess hd u rf now =
      (if stored.version = sess.version then
        Except.ok (setRows sess.session_id
          (fun r =>
            { r with history := hd, last_active := now,
                     version := stored.version + 1,
                     token_count := if rf then u else stored.token_count + u })
          db)
      else Except.error Err.staleData) := by
  unfold update_session
  rw [h0]

lemma latestFor_mem_aux (l : List Row) : ∀ (acc : Option Row) (r : Row),
    l.foldl
      (fun acc r =>
        match acc with
        | none => some r
        | some b => if b.last_active < r.last_active then some r else some b)
      acc = some r →
    acc = some r ∨ r ∈ l := by
  induction l with
  | nil => exact fun acc r h => Or.inl h
  | cons x xs ih =>
    intro acc r h
    rw [List.foldl_cons] at h
    rcases ih _ _ h with h2 | h2
    · cases acc with
      | none =>
        right
        cases h2
        exact List.mem_cons_self _ _
      | some b =>
        dsimp only at h2
        by_cases hlt : b.last_active < x.last_active
        · rw [if_pos hlt] at h2
          cases h2
          exact Or.inr (List.mem_cons_self _ _)
        · rw [if_neg hlt] at h2
          exact Or.inl h2
    · exact Or.inr (List.mem_cons_of_mem _ h2)

lemma latestFor_mem {db : DBState} {u : String} {r : Row}
    (h : latestFor db u = some r) : r ∈ db := by
  unfold latestFor at h
  rcases latestFor_mem_aux _ _ _ h with h2 | h2
  · cases h2
  · exact List.mem_of_mem_filter h2

lemma dropLeadingNonUser_length_le (l : List HistItem) :
    (dropLeadingNonUser l).length ≤ l.length := by
  induction l with
  | nil => simp [dropLeadingNonUser]
  | cons x xs ih =>
    unfold dropLeadingNonUser
    by_cases h : x.role = some "user"
    · rw [if_pos h]
    · rw [if_neg h]
      exact le_trans ih (Nat.le_succ _)

lemma dropLeadingNonUser_head {l : List HistItem} {x : HistItem}
    {xs : List HistItem} (h : dropLeadingNonUser l = x :: xs) :
    x.role = some "user" := by
  induction l with
  | nil => exact absurd h (by simp [dropLeadingNonUser])
  | cons y ys ih =>
    unfold dropLeadingNonUser at h
    by_cases hy : y.role = some "user"
    · rw [if_pos hy] at h
      cases h
      exact hy
    · rw [if_neg hy] at h
      exact ih h

lemma dropLeadingNonUser_suffix (l : List HistItem) :
    dropLeadingNonUser l <:+ l := by
  induction l with
  | nil => exact List.suffix_refl _
  | cons x xs ih =>
    unfold dropLeadingNonUser
    by_cases h : x.role = some "user"
    · rw [if_pos h]
    · rw [if_neg h]
      exact ih.trans (List.suffix_cons x xs)

/-! Theorems settling the claims. -/

/-- C10: a loaded history whose length is at most `MAX_HISTORY_LENGTH` is
returned by the truncation completely unchanged — the leading-turn
alignment rule runs only on strictly longer lists, so a short history that
begins with a non-"user" turn is kept as-is. -/
theorem strip_noop_when_short (max_len : Nat) (history : List HistItem)
    (h : history.length ≤ max_len) :
    strip_history_length max_len history = history := by
  unfold strip_history_length
  rw [if_pos h]

/-- Witness for C10: the two-item history starting with a "model" turn is
untouched by truncation with bound 3. -/
theorem strip_noop_when_short_witness :
    ([HistItem.mk (some "model"), HistItem.mk (some "user")] : List HistItem).length ≤ 3 ∧
    strip_history_length 3 [HistItem.mk (some "model"), HistItem.mk (some "user")] =
      [HistItem.mk (some "model"), HistItem.mk (some "user")] :=
  ⟨by decide,
   strip_noop_when_short 3 [HistItem.mk (some "model"), HistItem.mk (some "user")]
     (by decide)⟩

/-- C5 counterexample: with `MAX_HISTORY_LENGTH = 0` the Python slice
`history[-0:]` is the whole list, so a one-item history — strictly longer
than the bound — is returned with 1 entry, not at most 0. -/
theorem strip_zero_bound_keeps_whole_list :
    0 < ([HistItem.mk (some "user")] : List HistItem).length ∧
    strip_history_length 0 [HistItem.mk (some "user")] = [HistItem.mk (some "user")] ∧
    ¬ (strip_history_length 0 [HistItem.mk (some "user")]).length ≤ 0 := by
  decide

/-- C5 (amended to a positive bound): for `1 ≤ MAX_HISTORY_LENGTH` and a
history strictly longer than the bound, the truncation keeps at most
`MAX_HISTORY_LENGTH` entries, never begins with a non-"user" turn, and is a
suffix of the last-`MAX_HISTORY_LENGTH` slice. -/
theorem strip_history_bound_and_alignment (max_len : Nat)
    (history : List HistItem) (hpos : 1 ≤ max_len)
    (hlong : max_len < history.length) :
    (strip_history_length max_len history).length ≤ max_len ∧
    (∀ x ∈ (strip_history_length max_len history).head?, x.role = some "user") ∧
    strip_history_length max_len history <:+
      history.drop (history.length - max_len) := by
  have hne : ¬ history.length ≤ max_len := not_le.mpr hlong
  have hstrip : strip_history_length max_len history =
      dropLeadingNonUser (history.drop (history.length - max_len)) := by
    unfold strip_history_length pySliceLastN
    rw [if_neg hne, if_neg (by omega : ¬ max_len = 0)]
  refine ⟨?_, ?_, ?_⟩
  · rw [hstrip]
    have h1 : (history.drop (history.length - max_len)).length = max_len := by
      rw [List.length_drop]
      omega
    exact le_of_le_of_eq (dropLeadingNonUser_length_le _) h1
  · intro x hx
    rw [hstrip] at hx
    cases hd : dropLeadingNonUser (history.drop (history.length - max_len)) with
    | nil =>
      rw [hd] at hx
      simp at hx
    | cons y ys =>
      rw [hd] at hx
      simp only [List.head?_cons, Option.mem_def, Option.some.injEq] at hx
      rw [← hx]
      exact dropLeadingNonUser_head hd
  · rw [hstrip]
    exact dropLeadingNonUser_suffix _

/-- Witness for C5: the spec's own example, history
`[model, user, model, user, model]` with bound 3, yields `[user, model]`. -/
theorem strip_history_bound_and_alignment_witness :
    ((strip_history_length 3 [HistItem.mk (some "model"), HistItem.mk (some "user"),
        HistItem.mk (some "model"), HistItem.mk (some "user"),
        HistItem.mk (some "model")]).length ≤ 3 ∧
     (∀ x ∈ (strip_history_length 3 [HistItem.mk (some "model"), HistItem.mk (some "user"),
        HistItem.mk (some "model"), HistItem.mk (some "user"),
        HistItem.mk (some "model")]).head?, x.role = some "user") ∧
     strip_history_length 3 [HistItem.mk (some "model"), HistItem.mk (some "user"),
        HistItem.mk (some "model"), HistItem.mk (some "user"),
        HistItem.mk (some "model")] <:+
       ([HistItem.mk (some "model"), HistItem.mk (some "user"),
        HistItem.mk (some "model"), HistItem.mk (some "user"),
        HistItem.mk (some "model")].drop
          ([HistItem.mk (some "model"), HistItem.mk (some "user"),
            HistItem.mk (some "model"), HistItem.mk (some "user"),
            HistItem.mk (some "model")].length - 3))) ∧
    strip_history_length 3 [HistItem.mk (some "model"), HistItem.mk (some "user"),
        HistItem.mk (some "model"), HistItem.mk (some "user"),
        HistItem.mk (some "model")] =
      [HistItem.mk (some "user"), HistItem.mk (some "model")] :=
  ⟨strip_history_bound_and_alignment 3 _ (by decide) (by decide), by decide⟩

/-- C3 counterexample: the owner check is skipped for the falsy empty
caller name, so `get_session` hands the stored row of user "alice" to the
caller "" although "" differs from "alice". -/
theorem get_session_empty_caller_returns_data :
    ("" : String) ≠ "alice" ∧
    get_session [Row.mk "s1" "alice" [] 0 0 1] (some "s1") (some "") =
      Except.ok (some (Row.mk "s1" "alice" [] 0 0 1)) := by
  decide

/-- C3 (amended to a nonempty caller name): fetching a stored session (with
its nonempty id) by id while supplying a nonempty user name different from
the owner always raises the 403 Forbidden error and returns no data. -/
theorem cross_user_access_forbidden (db : DBState) (sid uB : String) (row : Row)
    (hsid : sid ≠ "") (hfind : findSession db sid = some row)
    (hB : uB ≠ "") (hne : uB ≠ row.user_name) :
    get_session db (some sid) (some uB) =
      Except.error (Err.http 403 "Forbidden") := by
  simp [get_session, pyTruthy, hsid, hB, hfind, Ne.symm hne]

/-- Witness for C3: user "bob" asking for the session of "alice" gets 403. -/
theorem cross_user_access_forbidden_witness :
    get_session [Row.mk "s1" "alice" [] 0 0 1] (some "s1") (some "bob") =
      Except.error (Err.http 403 "Forbidden") :=
  cross_user_access_forbidden [Row.mk "s1" "alice" [] 0 0 1] "s1" "bob"
    (Row.mk "s1" "alice" [] 0 0 1) (by decide) (by decide) (by decide) (by decide)

lemma update_session_ok (db : DBState) (sess stored : Row) (hd : List HistItem)
    (u : Nat) (rf : Bool) (now : Int) (db2 : DBState)
    (h0 : findSession db sess.session_id = some stored)
    (hu : update_session db sess hd u rf now = Except.ok db2) :
    stored.version = sess.version ∧
    db2 = setRows sess.session_id
      (fun r =>
        { r with history := hd, last_active := now,
                 version := stored.version + 1,
                 token_count := if rf then u else stored.token_count + u }) db ∧
    findSession db2 sess.session_id = some
      { stored with history := hd, last_active := now,
                    version := stored.version + 1,
                    token_count := if rf then u else stored.token_count + u } := by
  rw [update_session_unfold db sess hd u rf now stored h0] at hu
  by_cases hv : stored.version = sess.version
  · rw [if_pos hv] at hu
    simp only [Except.ok.injEq] at hu
    subst hu
    refine ⟨hv, rfl, ?_⟩
    rw [findSession_setRows db sess.session_id
      (fun r =>
        { r with history := hd, last_active := now,
                 version := stored.version + 1,
                 token_count := if rf then u else stored.token_count + u })
      (fun r => rfl), h0]
    rfl
  · rw [if_neg hv] at hu
    simp at hu

/-- C6: an `update_session` with `reset_token_count = true` that commits
stores exactly the turn's `token_usage` as the token count, independent of
the previously stored value. -/
theorem token_reset_sets_absolute (db db2 : DBState) (sess stored : Row)
    (hd : List HistItem) (u : Nat) (now : Int)
    (h0 : findSession db sess.session_id = some stored)
    (hu : update_session db sess hd u true now = Except.ok db2) :
    ∃ r, findSession db2 sess.session_id = some r ∧ r.token_count = u := by
  obtain ⟨-, -, h⟩ := update_session_ok db sess stored hd u true now db2 h0 hu
  exact ⟨_, h, rfl⟩

/-- Witness for C6: a session holding 500 tokens, reset-updated with usage
10, ends at exactly 10. -/
theorem token_reset_sets_absolute_witness :
    ∃ r, findSession [Row.mk "s1" "alice" [] 7 10 2] "s1" = some r ∧
      r.token_count = 10 :=
  token_reset_sets_absolute [Row.mk "s1" "alice" [] 0 500 1]
    [Row.mk "s1" "alice" [] 7 10 2] (Row.mk "s1" "alice" [] 0 500 1)
    (Row.mk "s1" "alice" [] 0 500 1) [] 10 7 (by decide) (by decide)

/-- C2: every `update_session` against a stored row either fails with the
stale-data conflict when the in-memory version differs from the stored one,
or — when it commits — leaves the row with a strictly larger version. -/
theorem update_session_version_guard (db : DBState) (sess stored : Row)
    (hd : List HistItem) (u : Nat) (rf : Bool) (now : Int)
    (h0 : findSession db sess.session_id = some stored) :
    (sess.version ≠ stored.version →
      update_session db sess hd u rf now = Except.error Err.staleData) ∧
    (∀ db2, update_session db sess hd u rf now = Except.ok db2 →
      ∃ r2, findSession db2 sess.session_id = some r2 ∧
        stored.version < r2.version) := by
  constructor
  · intro hne
    rw [update_session_unfold db sess hd u rf now stored h0,
      if_neg (fun h => hne h.symm)]
  · intro db2 hu
    obtain ⟨-, -, h⟩ := update_session_ok db sess stored hd u rf now db2 h0 hu
    exact ⟨_, h, Nat.lt_succ_self _⟩

/-- Witness for C2: a stale copy (version 1 against stored version 2) is
rejected with the conflict, and a matching copy commits bumping the version
from 1 to 2. -/
theorem update_session_version_guard_witness :
    (update_session [Row.mk "s1" "alice" [] 0 0 2]
        (Row.mk "s1" "alice" [] 0 0 1) [] 5 false 3 =
      Except.error Err.staleData) ∧
    ∃ r2, findSession [Row.mk "s1" "alice" [] 3 5 2] "s1" = some r2 ∧
      1 < r2.version := by
  constructor
  · exact (update_session_version_guard [Row.mk "s1" "alice" [] 0 0 2]
      (Row.mk "s1" "alice" [] 0 0 1) (Row.mk "s1" "alice" [] 0 0 2)
      [] 5 false 3 (by decide)).1 (by decide)
  · exact (update_session_version_guard [Row.mk "s1" "alice" [] 0 0 1]
      (Row.mk "s1" "alice" [] 0 0 1) (Row.mk "s1" "alice" [] 0 0 1)
      [] 5 false 3 (by decide)).2 [Row.mk "s1" "alice" [] 3 5 2] (by decide)

/-- C1: two committed non-reset updates of token usages `n` and `m`, each
issued through an arbitrary (possibly stale) in-memory copy of the row,
leave the stored token count at exactly its initial value plus `n` plus
`m`: the increment is evaluated by the store against the stored value, so
no increment is lost. -/
theorem token_increments_compose (db db2 db3 : DBState) (c1 c2 row0 : Row)
    (sid : String) (h1 h2 : List HistItem) (n m : Nat) (t1 t2 : Int)
    (hc1 : c1.session_id = sid) (hc2 : c2.session_id = sid)
    (h0 : findSession db sid = some row0)
    (hu1 : update_session db c1 h1 n false t1 = Except.ok db2)
    (hu2 : update_session db2 c2 h2 m false t2 = Except.ok db3) :
    ∃ r3, findSession db3 sid = some r3 ∧
      r3.token_count = row0.token_count + n + m := by
  obtain ⟨-, -, hf2⟩ := update_session_ok db c1 row0 h1 n false t1 db2
    (by rw [hc1]; exact h0) hu1
  rw [hc1] at hf2
  obtain ⟨-, -, hf3⟩ := update_session_ok db2 c2 _ h2 m false t2 db3
    (by rw [hc2]; exact hf2) hu2
  rw [hc2] at hf3
  exact ⟨_, hf3, rfl⟩

/-- Environment for the C4 counterexample: an active stored session with
zero tokens, and a collaborator answering "hi". -/
def envC4 : ChatEnv :=
  { db := [Row.mk "s1" "alice" [] 0 0 1], now := 10,
    llm := fun _ _ => Except.ok (LLMResp.mk "hi" [HistItem.mk (some "user")] (some 7)),
    freshId := "f1", interfMid := id, interfWrite := id }

/-- Configuration for the C4 counterexample: quota bound 0. -/
def cfgC4 : Config := Config.mk 300 50 0

/-- C4 counterexample: with `MAX_TOKENS_PER_CHAT_SESSION = 0`, a resolved
active session whose stored token count (0) is at the bound is not
rejected — the guard `if db_session.token_count and ...` is skipped for a
falsy count, the collaborator is invoked and the call succeeds. -/
theorem quota_skipped_at_zero_bound :
    cfgC4.maxTokens ≤ (Row.mk "s1" "alice" [] 0 0 1).token_count ∧
    envC4.now - (Row.mk "s1" "alice" [] 0 0 1).last_active ≤ cfgC4.timeout ∧
    (chatOnce cfgC4 envC4 "alice" "hello" (some "s1")).llmLog ≠ [] ∧
    (chatOnce cfgC4 envC4 "alice" "hello" (some "s1")).result =
      Except.ok ("hi", "s1") := by
  decide

/-- C4 (amended to a positive quota bound): a `chat` call resolving an
active (hence neither dropped nor reset) session whose stored token count
is at or above `MAX_TOKENS_PER_CHAT_SESSION ≥ 1` fails with the 400 quota
error and never invokes the collaborator. -/
theorem quota_enforced_before_llm (cfg : Config) (env : ChatEnv)
    (u p : String) (sid : Option String) (row : Row)
    (hres : get_session env.db sid (some u) = Except.ok (some row))
    (hactive : env.now - row.last_active ≤ cfg.timeout)
    (hquota : cfg.maxTokens ≤ row.token_count)
    (hpos : 1 ≤ cfg.maxTokens) :
    (chatOnce cfg env u p sid).result =
      Except.error (Err.http 400 (quotaDetail cfg.timeout)) ∧
    (chatOnce cfg env u p sid).llmLog = [] := by
  have hload : loadPhase cfg env.db env.now sid u =
      Except.ok ⟨some row, some ⟨row.session_id, row.token_count, false⟩,
        strip_history_length cfg.maxHistoryLength row.history⟩ := by
    unfold loadPhase
    rw [hres]
    dsimp only
    rw [if_neg (not_lt.mpr hactive)]
  have hqp : quotaPhase cfg
      ⟨some row, some ⟨row.session_id, row.token_count, false⟩,
        strip_history_length cfg.maxHistoryLength row.history⟩ =
      Except.error (Err.http 400 (quotaDetail cfg.timeout)) := by
    unfold quotaPhase check_token_limit
    simp only []
    rw [if_neg (by simp), if_pos ⟨by omega, hquota⟩]
  have hchat : chatOnce cfg env u p sid =
      ⟨Except.error (Err.http 400 (quotaDetail cfg.timeout)), env.db, []⟩ := by
    unfold chatOnce
    rw [hload]
    dsimp only
    rw [hqp]
  rw [hchat]
  exact ⟨rfl, rfl⟩

/-- Witness for C4 (amended): a session holding 800 tokens against bound
800 is rejected with the quota error and the collaborator log stays empty. -/
theorem quota_enforced_before_llm_witness :
    (chatOnce (Config.mk 300 50 800)
        (ChatEnv.mk [Row.mk "s1" "alice" [] 0 800 1] 10
          (fun _ _ => Except.ok (LLMResp.mk "hi" [] (some 7))) "f1" id id)
        "alice" "hello" (some "s1")).result =
      Except.error (Err.http 400 (quotaDetail 300)) ∧
    (chatOnce (Config.mk 300 50 800)
        (ChatEnv.mk [Row.mk "s1" "alice" [] 0 800 1] 10
          (fun _ _ => Except.ok (LLMResp.mk "hi" [] (some 7))) "f1" id id)
        "alice" "hello" (some "s1")).llmLog = [] :=
  quota_enforced_before_llm (Config.mk 300 50 800)
    (ChatEnv.mk [Row.mk "s1" "alice" [] 0 800 1] 10
      (fun _ _ => Except.ok (LLMResp.mk "hi" [] (some 7))) "f1" id id)
    "alice" "hello" (some "s1") (Row.mk "s1" "alice" [] 0 800 1)
    (by decide) (by decide) (by decide) (by decide)

/-- C9: when the collaborator raises, `chat` leaves the store exactly as it
was (no row updated, none created) and — whenever the collaborator was
actually invoked — surfaces the 503 service-unavailable error: the write
phase never begins. -/
theorem collaborator_failure_no_write (cfg : Config) (env : ChatEnv)
    (u p : String) (sid : Option String)
    (hllm : ∀ h q, env.llm h q = Except.error ()) :
    (chatOnce cfg env u p sid).db = env.db ∧
    ((chatOnce cfg env u p sid).llmLog ≠ [] →
      (chatOnce cfg env u p sid).result =
        Except.error (Err.http 503 "The AI service is currently unavailable.")) := by
  unfold chatOnce
  cases hload : loadPhase cfg env.db env.now sid u with
  | error e => exact ⟨rfl, fun h => absurd rfl h⟩
  | ok ctx =>
    dsimp only
    cases hq : quotaPhase cfg ctx with
    | error e => exact ⟨rfl, fun h => absurd rfl h⟩
    | ok unitv =>
      dsimp only
      rw [hllm ctx.history p]
      exact ⟨rfl, fun _ => rfl⟩

/-- Witness for C9: with a failing collaborator and a stored session, the
store after the call equals the store before it, and the raised error is
the 503. -/
theorem collaborator_failure_no_write_witness :
    (chatOnce (Config.mk 300 50 800)
        (ChatEnv.mk [Row.mk "s1" "alice" [] 0 0 1] 10
          (fun _ _ => Except.error ()) "f1" id id)
        "alice" "hello" (some "s1")).db = [Row.mk "s1" "alice" [] 0 0 1] ∧
    ((chatOnce (Config.mk 300 50 800)
        (ChatEnv.mk [Row.mk "s1" "alice" [] 0 0 1] 10
          (fun _ _ => Except.error ()) "f1" id id)
        "alice" "hello" (some "s1")).llmLog ≠ [] →
      (chatOnce (Config.mk 300 50 800)
        (ChatEnv.mk [Row.mk "s1" "alice" [] 0 0 1] 10
          (fun _ _ => Except.error ()) "f1" id id)
        "alice" "hello" (some "s1")).result =
        Except.error (Err.http 503 "The AI service is currently unavailable.")) :=
  collaborator_failure_no_write (Config.mk 300 50 800)
    (ChatEnv.mk [Row.mk "s1" "alice" [] 0 0 1] 10
      (fun _ _ => Except.error ()) "f1" id id)
    "alice" "hello" (some "s1") (fun _ _ => rfl)

lemma pyTruthy_some {s : String} (h : s ≠ "") : pyTruthy (some s) = true := by
  simp [pyTruthy, h]

lemma get_session_pinned_owner (db : DBState) (s uA : String) (row : Row)
    (hs : s ≠ "") (hfind : findSession db s = some row)
    (howner : row.user_name = uA) :
    get_session db (some s) (some uA) = Except.ok (some row) := by
  simp [get_session, pyTruthy, hs, hfind, howner]

/-- C7: a `chat` call resolving an expired session (age above
`TIMEOUT_SECONDS`), run without concurrent interference: with a pinned id
the turn proceeds on an empty history, commits the reset token count
(exactly this turn's usage) and returns the pinned id; without a pinned id
(lookup by user name, id argument `None`) the expired session is dropped
and the returned id is the freshly generated one, different from the
expired session's id. -/
theorem expired_session_pinned_vs_unpinned (cfg : Config) (env : ChatEnv)
    (u p : String) (hmid : env.interfMid = id) (hwrite : env.interfWrite = id) :
    (∀ s row resp, s ≠ "" →
      findSession env.db s = some row → row.user_name = u →
      cfg.timeout < env.now - row.last_active →
      env.llm [] p = Except.ok resp →
      (chatOnce cfg env u p (some s)).result = Except.ok (resp.text, s) ∧
      (chatOnce cfg env u p (some s)).llmLog = [([], p)] ∧
      ∃ r2, findSession (chatOnce cfg env u p (some s)).db s = some r2 ∧
        r2.token_count = resp.tokens.getD 0) ∧
    (∀ row resp, latestFor env.db u = some row →
      cfg.timeout < env.now - row.last_active →
      env.llm [] p = Except.ok resp →
      findSession env.db env.freshId = none →
      (chatOnce cfg env u p none).result = Except.ok (resp.text, env.freshId) ∧
      env.freshId ≠ row.session_id) := by
  constructor
  · intro s row resp hs hfind howner hexp hllm
    have hrs : row.session_id = s := findSession_id hfind
    subst hrs
    have hload : loadPhase cfg env.db env.now (some row.session_id) u =
        Except.ok ⟨some row, some ⟨row.session_id, 0, true⟩, []⟩ := by
      simp [loadPhase,
        get_session_pinned_owner env.db row.session_id u row hs hfind howner,
        hexp]
    have hupd : update_session env.db row resp.history (resp.tokens.getD 0)
        true env.now =
        Except.ok (setRows row.session_id
          (fun r =>
            { r with history := resp.history, last_active := env.now,
                     version := row.version + 1,
                     token_count := if true then resp.tokens.getD 0
                       else row.token_count + resp.tokens.getD 0 }) env.db) := by
      rw [update_session_unfold env.db row resp.history (resp.tokens.getD 0)
        true env.now row hfind, if_pos rfl]
    have hfinal : findSession (setRows row.session_id
        (fun r =>
          { r with history := resp.history, last_active := env.now,
                   version := row.version + 1,
                   token_count := if true then resp.tokens.getD 0
                     else row.token_count + resp.tokens.getD 0 }) env.db)
        row.session_id = some
          { row with history := resp.history, last_active := env.now,
                     version := row.version + 1,
                     token_count := if true then resp.tokens.getD 0
                       else row.token_count + resp.tokens.getD 0 } := by
      rw [findSession_setRows env.db row.session_id
        (fun r =>
          { r with history := resp.history, last_active := env.now,
                   version := row.version + 1,
                   token_count := if true then resp.tokens.getD 0
                     else row.token_count + resp.tokens.getD 0 })
        (fun r => rfl), hfind]
      rfl
    have hsave : savePhase env.db env.db env.now env.freshId u
        (some row.session_id) (some ⟨row.session_id, 0, true⟩) resp =
        (Except.ok (resp.text, row.session_id),
         setRows row.session_id
           (fun r =>
             { r with history := resp.history, last_active := env.now,
                      version := row.version + 1,
                      token_count := if true then resp.tokens.getD 0
                        else row.token_count + resp.tokens.getD 0 }) env.db) := by
      simp [savePhase, pyTruthy_some hs,
        get_session_pinned_owner env.db row.session_id u row hs hfind howner,
        hupd]
    have hchat : chatOnce cfg env u p (some row.session_id) =
        ⟨Except.ok (resp.text, row.session_id),
         setRows row.session_id
           (fun r =>
             { r with history := resp.history, last_active := env.now,
                      version := row.version + 1,
                      token_count := if true then resp.tokens.getD 0
                        else row.token_count + resp.tokens.getD 0 }) env.db,
         [([], p)]⟩ := by
      simp [chatOnce, hload, quotaPhase, hllm, hmid, hwrite, hsave]
    rw [hchat]
    exact ⟨rfl, rfl, ⟨_, hfinal, rfl⟩⟩
  · intro row resp hlatest hexp hllm hfresh
    have hneq : env.freshId ≠ row.session_id := by
      intro he
      have hmem : row ∈ env.db := latestFor_mem hlatest
      have hnone := List.find?_eq_none.mp hfresh row hmem
      exact hnone (by simp [he])
    have hload : loadPhase cfg env.db env.now none u =
        Except.ok ⟨none, none, []⟩ := by
      by_cases hu : u = ""
      · simp [loadPhase, get_session, pyTruthy, hu]
      · simp [loadPhase, get_session, pyTruthy, hu, hlatest, hexp]
    have hupd2 : update_session
        (env.db ++ [Row.mk env.freshId u [] env.now 0 1])
        (Row.mk env.freshId u [] env.now 0 1) resp.history
        (resp.tokens.getD 0) false env.now =
        Except.ok (setRows env.freshId
          (fun r =>
            { r with history := resp.history, last_active := env.now,
                     version := 1 + 1,
                     token_count := if false then resp.tokens.getD 0
                       else 0 + resp.tokens.getD 0 })
          (env.db ++ [Row.mk env.freshId u [] env.now 0 1])) := by
      rw [update_session_unfold _ _ _ _ _ _
        (Row.mk env.freshId u [] env.now 0 1) (findSession_append hfresh),
        if_pos rfl]
    have hsave2 : savePhase env.db env.db env.now env.freshId u none none resp =
        (Except.ok (resp.text, env.freshId),
         setRows env.freshId
           (fun r =>
             { r with history := resp.history, last_active := env.now,
                      version := 1 + 1,
                      token_count := if false then resp.tokens.getD 0
                        else 0 + resp.tokens.getD 0 })
           (env.db ++ [Row.mk env.freshId u [] env.now 0 1])) := by
      simp [savePhase, pyTruthy, create_session, hfresh, hupd2]
    have hchat2 : chatOnce cfg env u p none =
        ⟨Except.ok (resp.text, env.freshId),
         setRows env.freshId
           (fun r =>
             { r with history := resp.history, last_active := env.now,
                      version := 1 + 1,
                      token_count := if false then resp.tokens.getD 0
                        else 0 + resp.tokens.getD 0 })
           (env.db ++ [Row.mk env.freshId u [] env.now 0 1]),
         [([], p)]⟩ := by
      simp [chatOnce, hload, quotaPhase, hllm, hmid, hwrite, hsave2]
    rw [hchat2]
    exact ⟨rfl, hneq⟩

/-- Environment of the C7 witness: one session of "alice", last active at
time 0, observed at time 400 with `TIMEOUT_SECONDS = 300`. -/
def envC7 : ChatEnv :=
  { db := [Row.mk "s1" "alice" [] 0 0 1], now := 400,
    llm := fun _ _ => Except.ok (LLMResp.mk "hi" [HistItem.mk (some "user")] (some 7)),
    freshId := "f1", interfMid := id, interfWrite := id }

/-- Witness for C7: the expired session pinned by id keeps "s1" and commits
token count 7 off an empty-history turn; looked up by user name only, the
turn returns the fresh id "f1" instead. -/
theorem expired_session_pinned_vs_unpinned_witness :
    ((chatOnce (Config.mk 300 50 800) envC7 "alice" "hello" (some "s1")).result =
        Except.ok ("hi", "s1") ∧
      (chatOnce (Config.mk 300 50 800) envC7 "alice" "hello"
        (some "s1")).llmLog = [([], "hello")] ∧
      ∃ r2, findSession
          (chatOnce (Config.mk 300 50 800) envC7 "alice" "hello" (some "s1")).db
          "s1" = some r2 ∧ r2.token_count = 7) ∧
    ((chatOnce (Config.mk 300 50 800) envC7 "alice" "hello" none).result =
        Except.ok ("hi", "f1") ∧
      ("f1" : String) ≠ "s1") := by
  have h := expired_session_pinned_vs_unpinned (Config.mk 300 50 800) envC7
    "alice" "hello" rfl rfl
  exact ⟨h.1 "s1" (Row.mk "s1" "alice" [] 0 0 1)
      (LLMResp.mk "hi" [HistItem.mk (some "user")] (some 7))
      (by decide) (by decide) (by decide) (by decide) rfl,
    h.2 (Row.mk "s1" "alice" [] 0 0 1)
      (LLMResp.mk "hi" [HistItem.mk (some "user")] (some 7))
      (by decide) (by decide) rfl (by decide)⟩

/-- C8: the decorated `chat` runs at most 3 attempts, sleeps the fixed 0.5 s
backoff between attempts, restarts the whole body (from session
resolution) after a version-conflict or duplicate-key failure, and when
all three attempts fail with such errors the last attempt's error
propagates; a retryable failure followed by a success returns the second
attempt's outcome. -/
theorem conflict_retry_bounded (cfg : Config) (envs : Nat → ChatEnv)
    (u p : String) (sid : Option String) :
    (chat cfg envs u p sid).attempts ≤ 3 ∧
    (∀ w ∈ (chat cfg envs u p sid).waits, w = (1 / 2 : Rat)) ∧
    ((∀ k, k < 3 →
        retryableResult (chatOnce cfg (envs k) u p sid).result = true) →
      (chat cfg envs u p sid).outcome = chatOnce cfg (envs 2) u p sid ∧
      (chat cfg envs u p sid).attempts = 3) ∧
    (retryableResult (chatOnce cfg (envs 0) u p sid).result = true →
      retryableResult (chatOnce cfg (envs 1) u p sid).result = false →
      (chat cfg envs u p sid).outcome = chatOnce cfg (envs 1) u p sid ∧
      (chat cfg envs u p sid).attempts = 2) := by
  by_cases h0 : retryableResult (chatOnce cfg (envs 0) u p sid).result = true
  · by_cases h1 : retryableResult (chatOnce cfg (envs 1) u p sid).result = true
    · have hc : chat cfg envs u p sid =
          ⟨chatOnce cfg (envs 2) u p sid, 3, [(1 / 2 : Rat), (1 / 2 : Rat)]⟩ := by
        simp [chat, chatRetryFrom, h0, h1]
      rw [hc]
      refine ⟨by simp, ?_, fun _ => ⟨rfl, rfl⟩,
        fun _ hbad => absurd h1 (by rw [hbad]; simp)⟩
      intro w hw
      simp only [List.mem_cons, List.not_mem_nil, or_false] at hw
      rcases hw with h | h <;> exact h
    · have hc : chat cfg envs u p sid =
          ⟨chatOnce cfg (envs 1) u p sid, 2, [(1 / 2 : Rat)]⟩ := by
        simp [chat, chatRetryFrom, h0, h1]
      rw [hc]
      refine ⟨by simp, ?_, fun hall => absurd (hall 1 (by omega)) h1,
        fun _ _ => ⟨rfl, rfl⟩⟩
      intro w hw
      simpa using hw
  · have hc : chat cfg envs u p sid =
        ⟨chatOnce cfg (envs 0) u p sid, 1, []⟩ := by
      simp [chat, chatRetryFrom, h0]
    rw [hc]
    exact ⟨by simp, fun w hw => absurd hw (by simp),
      fun hall => absurd (hall 0 (by omega)) h0,
      fun hfail => absurd hfail h0⟩

/-- Environment of the C8 witness: a concurrent writer bumps the row's
version inside every save window, so every attempt fails with the
stale-data conflict. -/
def envC8 : ChatEnv :=
  { db := [Row.mk "s1" "alice" [] 0 0 1], now := 10,
    llm := fun _ _ => Except.ok (LLMResp.mk "hi" [] (some 7)),
    freshId := "f1", interfMid := id,
    interfWrite := fun db =>
      setRows "s1" (fun r => { r with version := r.version + 1 }) db }

/-- Witness for C8: with every attempt hitting the version conflict, `chat`
returns the third attempt's outcome after exactly 3 attempts. -/
theorem conflict_retry_bounded_witness :
    (chat (Config.mk 300 50 800) (fun _ => envC8) "alice" "hi"
        (some "s1")).outcome =
      chatOnce (Config.mk 300 50 800) envC8 "alice" "hi" (some "s1") ∧
    (chat (Config.mk 300 50 800) (fun _ => envC8) "alice" "hi"
        (some "s1")).attempts = 3 :=
  (conflict_retry_bounded (Config.mk 300 50 800) (fun _ => envC8) "alice" "hi"
    (some "s1")).2.2.1 (by decide)

/-- Witness for C1: starting at 0, increments of 100 and 200 — the second
issued through a copy still reporting 0 tokens — end at exactly 300. -/
theorem token_increments_compose_witness :
    ∃ r3, findSession [Row.mk "s1" "alice" [] 9 300 3] "s1" = some r3 ∧
      r3.token_count = 0 + 100 + 200 :=
  token_increments_compose [Row.mk "s1" "alice" [] 0 0 1]
    [Row.mk "s1" "alice" [] 8 100 2] [Row.mk "s1" "alice" [] 9 300 3]
    (Row.mk "s1" "alice" [] 0 0 1) (Row.mk "s1" "alice" [] 0 0 2)
    (Row.mk "s1" "alice" [] 0 0 1) "s1" [] [] 100 200 8 9
    rfl rfl (by decide) (by decide) (by decide)
